import Mathlib

/-!
Shallow embedding of the kmsgrab KMS/DRM screenshot tool (src/kmsgrab.c) and
verification of its specified properties.

Machine integers are modelled as Nat with explicit truncation where the C code
stores into a fixed-width unsigned type: u8/u32/u64 below are the value maps of
uint8_t/uint32_t/uint64_t stores.  Byte buffers are modelled as Nat-valued
maps from byte offsets (a uint8_t load from a valid buffer yields a value
below 256; theorems about buffer contents carry that bound as a hypothesis).
-/

namespace Kmsgrab

/-- Value stored in a uint8_t. -/
def u8 (x : Nat) : Nat := x % 2 ^ 8

/-- Value stored in a uint32_t. -/
def u32 (x : Nat) : Nat := x % 2 ^ 32

/-- Value stored in a uint64_t. -/
def u64 (x : Nat) : Nat := x % 2 ^ 64

/-- The uint24_t struct of kmsgrab.c: one 8-bit-per-channel RGB pixel. -/
structure uint24_t where
  r : Nat
  g : Nat
  b : Nat
deriving DecidableEq, Repr

/-- rgb16_to_24 (kmsgrab.c lines 128-137): unpack one 5-6-5 16-bit pixel.
Each field assignment stores into a uint8_t, hence the u8 wrapper. -/
def rgb16_to_24 (px : Nat) : uint24_t where
  b := u8 ((px &&& 0x1f) <<< 3)
  g := u8 ((px &&& 0x7e0) >>> 3)
  r := u8 ((px &&& 0xf800) >>> 8)

/-- rgb32_to_24 (kmsgrab.c lines 140-149): unpack one 32-bit XRGB pixel;
the top (alpha) byte is discarded. -/
def rgb32_to_24 (px : Nat) : uint24_t where
  b := u8 (px &&& 0xff)
  g := u8 ((px >>> 8) &&& 0xff)
  r := u8 ((px >>> 16) &&& 0xff)

/-- convert_to_24 (kmsgrab.c lines 152-165): the pixel list stands for the
width*height native pixels of the linearized framebuffer.  The code branches
only on bpp == 16; every other bpp value takes the 32-bit branch. -/
def convert_to_24 (bpp : Nat) (pixels : List Nat) : List uint24_t :=
  if bpp = 16 then pixels.map rgb16_to_24 else pixels.map rgb32_to_24

/-- Output image container, selected in grab_once (lines 530-533). -/
inductive ImgFormat where
  | jpg
  | png
deriving DecidableEq

/-- The ".jpg" needle of the first strstr call. -/
def jpg_pat : List Char := ".jpg".toList

/-- The ".jpeg" needle of the second strstr call. -/
def jpeg_pat : List Char := ".jpeg".toList

/-- Prefix test used to define strstr: does the haystack start with needle? -/
def starts_with : List Char → List Char → Bool
  | [], _ => true
  | _ :: _, [] => false
  | c :: cs, d :: ds => c == d && starts_with cs ds

/-- strstr(hay, needle) != NULL: the needle occurs somewhere in the haystack. -/
def strstr_found (needle : List Char) : List Char → Bool
  | [] => starts_with needle []
  | c :: rest => starts_with needle (c :: rest) || strstr_found needle rest

/-- Format dispatch of grab_once (lines 530-533):
if (strstr(output_fn, ".jpg") || strstr(output_fn, ".jpeg")) save_jpg else save_png. -/
def pick_format (fn : List Char) : ImgFormat :=
  if strstr_found jpg_pat fn || strstr_found jpeg_pat fn then .jpg else .png

/-- Modelled from the spec: round(a / b) to the nearest integer (half rounds
up), the rounding the dimension-resolution sentence of the spec asks for.
Used only to compare the code's truncating division against the spec. -/
def spec_round_div (a b : Nat) : Nat := (2 * a + b) / (2 * b)

/-- Dimension resolution of grab_once (lines 516-523).  fb_w/fb_h are the
framebuffer (source) dimensions; req_w and req_h the requested output size.
The divisions are 64-bit and the results are stored into uint32_t out_w/out_h. -/
def resolve_dims (req_w req_h fb_w fb_h : Nat) : Nat × Nat :=
  if req_w = 0 ∧ req_h = 0 then (fb_w, fb_h)
  else if req_w = 0 then (u32 (u64 (req_h * fb_w) / fb_h), req_h)
  else if req_h = 0 then (req_w, u32 (u64 (req_w * fb_h) / fb_w))
  else (req_w, req_h)

/-- C isspace on the default locale: space, tab, newline, vertical tab,
form feed, carriage return. -/
def c_isspace (c : Char) : Bool :=
  c == ' ' || c == '\t' || c == '\n' || c == Char.ofNat 11 || c == Char.ofNat 12 || c == '\r'

/-- The C string seen by the daemon's command parser: the bytes read, cut at
the first NUL (run_daemon writes buf[len] = 0 and uses C string functions). -/
def c_str (input : List Char) : List Char :=
  input.takeWhile fun c => c != Char.ofNat 0

/-- Whitespace trimming of run_daemon (lines 609-616): skip leading isspace
bytes, then overwrite trailing isspace bytes with NUL. -/
def trim_cmd (s : List Char) : List Char :=
  ((s.dropWhile c_isspace).reverse.dropWhile c_isspace).reverse

/-- The only accepted command. -/
def grab_cmd : List Char := "GRAB".toList

/-- Reply written on a successful capture. -/
def reply_ok : List Char := "OK\n".toList

/-- Reply written when grab_once fails. -/
def reply_grab_failed : List Char := "ERR grab failed\n".toList

/-- Reply written for any command other than GRAB. -/
def reply_unsupported : List Char := "ERR unsupported command\n".toList

/-- One accepted connection of run_daemon (lines 602-627).  input is the byte
sequence delivered by read (at most 127 bytes; empty when read returns 0 or
an error), grab_ok abstracts the result of grab_once.  Result: the reply
written before close (none when the code closes without replying) and
whether grab_once was invoked.  The connection is closed after the single
optional write in every case. -/
def handle_conn (input : List Char) (grab_ok : Bool) : Option (List Char) × Bool :=
  if input.length = 0 then (none, false)
  else if trim_cmd (c_str input) = grab_cmd then
    (some (if grab_ok then reply_ok else reply_grab_failed), true)
  else (some reply_unsupported, false)

/-- Resources acquired by save_jpg (kmsgrab.c lines 291-392). -/
inductive Res where
  | picture
  | linear
  | mapping
  | file
  | scaled
deriving DecidableEq

/-- Exit paths of save_jpg: the first step that fails, or success. -/
inductive JpgOutcome where
  | allocPictureFail
  | allocLinearFail
  | mmapFail
  | fopenFail
  | scaleFail
  | success
deriving DecidableEq

/-- Resource trace of save_jpg (lines 291-392): for each exit path, the list
of resources acquired before the exit (in acquisition order) and the list of
resources released on the way out (in release order), read off the goto
chain out_unmap_buffer / out_free_linear / out_free_picture.
allocPictureFail: malloc(picture) fails, plain return.
allocLinearFail: goto out_free_picture.
mmapFail: goto out_free_linear.
fopenFail: goto out_unmap_buffer (file never opened).
scaleFail: scaling was required and scale_rgb24_auto returned NULL; the code
does goto out_unmap_buffer (line 352) with jpgfile open and no fclose on
that path.
success: fclose(jpgfile), free(scaled) (a no-op when no scaling happened),
then falls through the full cleanup chain. -/
def save_jpg_model (outcome : JpgOutcome) (need_scale : Bool) : List Res × List Res :=
  match outcome with
  | .allocPictureFail => ([], [])
  | .allocLinearFail => ([.picture], [.picture])
  | .mmapFail => ([.picture, .linear], [.linear, .picture])
  | .fopenFail => ([.picture, .linear, .mapping], [.mapping, .linear, .picture])
  | .scaleFail => ([.picture, .linear, .mapping, .file], [.mapping, .linear, .picture])
  | .success =>
    if need_scale then
      ([.picture, .linear, .mapping, .file, .scaled],
       [.file, .scaled, .mapping, .linear, .picture])
    else
      ([.picture, .linear, .mapping, .file], [.file, .mapping, .linear, .picture])

/-- Integer part of a 16.16 fixed-point coordinate (the >> 16 of the code). -/
def fp_int (s : Nat) : Nat := s >>> 16

/-- Fractional part of a 16.16 fixed-point coordinate (the & 0xffff). -/
def fp_frac (s : Nat) : Nat := s &&& 0xffff

/-- Second sample index, clamped at the last row/column:
x1 = x0 < max_x ? x0 + 1 : x0 (and the same for y). -/
def clamp_next (i0 imax : Nat) : Nat := if i0 < imax then i0 + 1 else i0

/-- The 16.16 source coordinate of scale_rgb24_bilinear (lines 57-58, 64-65)
for destination index i, source extent n, destination extent d:
(d == 1) ? 0 : (uint32_t)(((uint64_t)i * (n - 1) << 16) / (d - 1)). -/
def bilinear_coord (n d i : Nat) : Nat :=
  if d = 1 then 0 else u32 (u64 ((i * (n - 1)) <<< 16) / (d - 1))

/-- One neighbor byte read of the scalers: src + (row * src_w + col) * 3 is a
uint32 offset computation, c the channel index added in pointer indexing. -/
def neighbor (src : Nat → Nat) (src_w row col c : Nat) : Nat :=
  src (u32 ((row * src_w + col) * 3) + c)

/-- The per-channel blend of scale_rgb24_bilinear (lines 76-86): 64-bit
weights from the two 16-bit fractional parts, 64-bit sum of the four
weighted neighbors plus the rounding term 2^31, shifted right by 32 and
stored into a uint8_t. -/
def blend4 (p00 p10 p01 p11 fx fy : Nat) : Nat :=
  u8 (u64 (p00 * ((65536 - fx) * (65536 - fy)) + p10 * (fx * (65536 - fy)) +
    p01 * ((65536 - fx) * fy) + p11 * (fx * fy) + 2 ^ 31) >>> 32)

/-- Loop body of scale_rgb24_bilinear (kmsgrab.c lines 40-91) for the
destination pixel (x, y) and channel c: the value the code stores at
dst[(y * dst_w + x) * 3 + c].  The function is meaningful for x < dst_w,
y < dst_h, c < 3 (the code's loop ranges); the early-return guard for a zero
dimension means no such pixel exists in that case. -/
def scale_rgb24_bilinear_at (src : Nat → Nat)
    (src_w src_h dst_w dst_h x y c : Nat) : Nat :=
  let sy := bilinear_coord src_h dst_h y
  let y0 := fp_int sy
  let y1 := clamp_next y0 (src_h - 1)
  let fy := fp_frac sy
  let sx := bilinear_coord src_w dst_w x
  let x0 := fp_int sx
  let x1 := clamp_next x0 (src_w - 1)
  let fx := fp_frac sx
  blend4 (neighbor src src_w y0 x0 c) (neighbor src src_w y0 x1 c)
    (neighbor src src_w y1 x0 c) (neighbor src src_w y1 x1 c) fx fy

/-- Loop body of the nearest-neighbor scale_rgb24 (kmsgrab.c lines 93-117)
for destination pixel (x, y), channel c: sy = (uint64_t)y * src_h / dst_h
stored into uint32_t, likewise sx, and a verbatim byte copy from
src + (sy * src_w + sx) * 3. -/
def scale_rgb24_at (src : Nat → Nat) (src_w src_h dst_w dst_h x y c : Nat) : Nat :=
  let sy := u32 (u64 (y * src_h) / dst_h)
  let sx := u32 (u64 (x * src_w) / dst_w)
  src (u32 ((sy * src_w + sx) * 3) + c)

/-! ### Helper lemmas -/

theorem u8_id {x : Nat} (h : x < 2 ^ 8) : u8 x = x := Nat.mod_eq_of_lt h

theorem u32_id {x : Nat} (h : x < 2 ^ 32) : u32 x = x := Nat.mod_eq_of_lt h

theorem u64_id {x : Nat} (h : x < 2 ^ 64) : u64 x = x := Nat.mod_eq_of_lt h

/-- Masking with a shifted mask reads the shifted bits: n AND (m shifted left
by k) equals ((n shifted right by k) AND m) shifted left by k. -/
theorem and_shiftLeft_mask (n m k : Nat) :
    n &&& (m <<< k) = ((n >>> k) &&& m) <<< k := by
  apply Nat.eq_of_testBit_eq
  intro i
  simp only [Nat.testBit_and, Nat.testBit_shiftLeft, Nat.testBit_shiftRight]
  rcases le_or_lt k i with h | h
  · have hd : decide (i ≥ k) = true := by simpa using h
    rw [hd, Nat.add_sub_cancel' h]
    cases n.testBit i <;> cases m.testBit (i - k) <;> simp
  · have hd : decide (i ≥ k) = false := by simpa using h
    rw [hd]
    simp

theorem and_f800 (px : Nat) : px &&& 0xf800 = ((px >>> 11) &&& 31) <<< 11 := by
  have h : (0xf800 : Nat) = 31 <<< 11 := by decide
  rw [h, and_shiftLeft_mask]

theorem and_07e0 (px : Nat) : px &&& 0x7e0 = ((px >>> 5) &&& 63) <<< 5 := by
  have h : (0x7e0 : Nat) = 63 <<< 5 := by decide
  rw [h, and_shiftLeft_mask]

theorem and_ff_eq_mod (n : Nat) : n &&& 0xff = n % 2 ^ 8 := by
  have h : (0xff : Nat) = 2 ^ 8 - 1 := by norm_num
  rw [h, Nat.and_pow_two_sub_one_eq_mod]

/-! ### C1 / C10: pixel conversion -/

/-- C1 counterexample: the code converts the pure-red 5-6-5 pixel 0xF800 to
red channel 248 (the top five bits land in bit positions 3-7 after the
shift right by 8), not to 255 as the claim states. -/
theorem c1_red16_not_255_cex : rgb16_to_24 0xF800 ≠ ⟨255, 0, 0⟩ := by decide

/-- C1 (amended): channel extraction exactness with the red value the code
actually produces: 0xF800 converts to R=248,G=0,B=0; 0x07E0 to R=0,G=252,B=0;
0x001F to R=0,G=0,B=248; and every 32-bit pixel whose low 24 bits are
0xFF0000 converts to R=255,G=0,B=0 whatever its alpha byte holds. -/
theorem c1_channel_extraction_amended :
    rgb16_to_24 0xF800 = ⟨248, 0, 0⟩ ∧
    rgb16_to_24 0x07E0 = ⟨0, 252, 0⟩ ∧
    rgb16_to_24 0x001F = ⟨0, 0, 248⟩ ∧
    ∀ px : Nat, px % 2 ^ 24 = 0xFF0000 → rgb32_to_24 px = ⟨255, 0, 0⟩ := by
  refine ⟨by decide, by decide, by decide, ?_⟩
  intro px hpx
  obtain ⟨q, hq⟩ : ∃ q, px = 2 ^ 24 * q + 0xFF0000 := ⟨px / 2 ^ 24, by omega⟩
  subst hq
  simp only [rgb32_to_24, uint24_t.mk.injEq, u8, and_ff_eq_mod,
    Nat.shiftRight_eq_div_pow]
  refine ⟨?_, ?_, ?_⟩ <;> omega

/-- C1 witness: a concrete 32-bit pixel with alpha byte 0xAB. -/
theorem c1_channel_extraction_witness : rgb32_to_24 0xABFF0000 = ⟨255, 0, 0⟩ :=
  c1_channel_extraction_amended.2.2.2 0xABFF0000 (by decide)

/-- C10: every 16-bit pixel converts to a red and blue channel that is a
multiple of 8 and at most 248, and a green channel that is a multiple of 4
and at most 252; 255 is unreachable in every channel. -/
theorem c10_rgb16_channel_invariants (px : Nat) :
    8 ∣ (rgb16_to_24 px).r ∧ (rgb16_to_24 px).r ≤ 248 ∧ (rgb16_to_24 px).r ≠ 255 ∧
    4 ∣ (rgb16_to_24 px).g ∧ (rgb16_to_24 px).g ≤ 252 ∧ (rgb16_to_24 px).g ≠ 255 ∧
    8 ∣ (rgb16_to_24 px).b ∧ (rgb16_to_24 px).b ≤ 248 ∧ (rgb16_to_24 px).b ≠ 255 := by
  have hr : (rgb16_to_24 px).r = ((px >>> 11) &&& 31) * 8 := by
    show u8 ((px &&& 0xf800) >>> 8) = _
    have h31 : (px >>> 11) &&& 31 ≤ 31 := Nat.and_le_right
    rw [and_f800, Nat.shiftLeft_eq, Nat.shiftRight_eq_div_pow, u8]
    omega
  have hg : (rgb16_to_24 px).g = ((px >>> 5) &&& 63) * 4 := by
    show u8 ((px &&& 0x7e0) >>> 3) = _
    have h63 : (px >>> 5) &&& 63 ≤ 63 := Nat.and_le_right
    rw [and_07e0, Nat.shiftLeft_eq, Nat.shiftRight_eq_div_pow, u8]
    omega
  have hb : (rgb16_to_24 px).b = (px &&& 31) * 8 := by
    show u8 ((px &&& 0x1f) <<< 3) = _
    have h31 : px &&& 31 ≤ 31 := Nat.and_le_right
    rw [Nat.shiftLeft_eq, u8]
    norm_num
    omega
  have h1 : (px >>> 11) &&& 31 ≤ 31 := Nat.and_le_right
  have h2 : (px >>> 5) &&& 63 ≤ 63 := Nat.and_le_right
  have h3 : px &&& 31 ≤ 31 := Nat.and_le_right
  rw [hr, hg, hb]
  omega

/-! ### C5: unsupported bit depths -/

/-- C5: for every bits-per-pixel value other than 16 — 24 here — the
conversion step does not reject the frame: convert_to_24 interprets the
pixels through the 32-bit unpacker (its result type has no error case at
all), instead of signalling an unsupported format. -/
theorem c5_bpp24_treated_as_32 :
    ∀ pixels : List Nat, convert_to_24 24 pixels = pixels.map rgb32_to_24 :=
  fun _ => rfl

/-! ### C6: resource release -/

/-- C6: on the exit path where scaling is required and the scale buffer
allocation fails, save_jpg has acquired the destination file handle but its
release list does not contain it: the goto out_unmap_buffer at line 352
skips fclose(jpgfile), so the FILE handle leaks. -/
theorem c6_save_jpg_scale_fail_leaks_file :
    Res.file ∈ (save_jpg_model JpgOutcome.scaleFail true).1 ∧
    Res.file ∉ (save_jpg_model JpgOutcome.scaleFail true).2 := by
  decide

/-! ### C2: format selection -/

theorem starts_with_iff (n h : List Char) : starts_with n h = true ↔ n <+: h := by
  induction n generalizing h with
  | nil => simp [starts_with]
  | cons c cs ih =>
    cases h with
    | nil => simp [starts_with]
    | cons d ds => simp [starts_with, ih, List.cons_prefix_cons]

theorem strstr_found_iff (n h : List Char) : strstr_found n h = true ↔ n <:+: h := by
  induction h with
  | nil => simp [strstr_found, starts_with_iff]
  | cons c t ih => simp [strstr_found, starts_with_iff, ih, List.infix_cons_iff]

/-- C2 counterexample: the name shot.jpg.png does not end in .jpg nor in
.jpeg, yet the code selects JPEG for it, because strstr finds .jpg in the
middle of the name. -/
theorem c2_substring_not_suffix_cex :
    pick_format "shot.jpg.png".toList = ImgFormat.jpg ∧
    ¬ jpg_pat <:+ "shot.jpg.png".toList ∧
    ¬ jpeg_pat <:+ "shot.jpg.png".toList := by
  refine ⟨by decide, by decide, by decide⟩

/-- C2 (amended): the pipeline encodes as JPEG if and only if the destination
name contains ".jpg" or ".jpeg" as a substring anywhere (exact case), and
encodes as PNG for every other name. -/
theorem c2_format_selection_amended (fn : List Char) :
    pick_format fn = ImgFormat.jpg ↔ (jpg_pat <:+: fn ∨ jpeg_pat <:+: fn) := by
  have key : (strstr_found jpg_pat fn || strstr_found jpeg_pat fn) = true ↔
      (jpg_pat <:+: fn ∨ jpeg_pat <:+: fn) := by
    simp [strstr_found_iff]
  rw [pick_format]
  by_cases hb : (strstr_found jpg_pat fn || strstr_found jpeg_pat fn) = true
  · rw [if_pos hb]
    simp [key.mp hb]
  · rw [if_neg hb]
    exact iff_of_false (by decide) fun hor => hb (key.mpr hor)

/-! ### C3: dimension resolution -/

/-- C3 counterexample: for a 3 by 2 source and the request width 4, height 0,
the code resolves the height with truncating division to 2, while the
rounding the claim specifies gives round(4*2/3) = 3. -/
theorem c3_round_vs_floor_cex :
    (resolve_dims 4 0 3 2).2 = 2 ∧ spec_round_div (4 * 2) 3 = 3 := by decide

/-- C3 (amended): dimension resolution with truncating (floor) division
instead of rounding: both zero gives the source size; only height zero gives
height = floor(req_w * src_h / src_w); only width zero gives
width = floor(req_h * src_w / src_h); both nonzero are used as given.  The
divisions are exact for the 1920x1080 source with width request 960, which
still resolves to 960x540.  All four inputs are uint32 values; the two mixed
cases additionally assume the 64-bit quotient fits the uint32 it is stored
into. -/
theorem c3_resolve_dims_amended (req_w req_h src_w src_h : Nat)
    (hsw : 0 < src_w) (hsh : 0 < src_h)
    (hw32 : req_w < 2 ^ 32) (hh32 : req_h < 2 ^ 32)
    (hsw32 : src_w < 2 ^ 32) (hsh32 : src_h < 2 ^ 32) :
    (req_w = 0 → req_h = 0 → resolve_dims req_w req_h src_w src_h = (src_w, src_h)) ∧
    (req_w = 0 → req_h ≠ 0 → req_h * src_w / src_h < 2 ^ 32 →
      resolve_dims req_w req_h src_w src_h = (req_h * src_w / src_h, req_h)) ∧
    (req_w ≠ 0 → req_h = 0 → req_w * src_h / src_w < 2 ^ 32 →
      resolve_dims req_w req_h src_w src_h = (req_w, req_w * src_h / src_w)) ∧
    (req_w ≠ 0 → req_h ≠ 0 → resolve_dims req_w req_h src_w src_h = (req_w, req_h)) := by
  refine ⟨?_, ?_, ?_, ?_⟩
  · intro h1 h2
    simp [resolve_dims, h1, h2]
  · intro h1 h2 hq
    have hm : req_h * src_w < 2 ^ 64 := by
      calc req_h * src_w < 2 ^ 32 * 2 ^ 32 := Nat.mul_lt_mul'' hh32 hsw32
        _ = 2 ^ 64 := by norm_num
    simp only [resolve_dims, h1, h2, if_neg, if_pos, and_true, true_and]
    rw [u64_id hm, u32_id hq]
    simp
  · intro h1 h2 hq
    have hm : req_w * src_h < 2 ^ 64 := by
      calc req_w * src_h < 2 ^ 32 * 2 ^ 32 := Nat.mul_lt_mul'' hw32 hsh32
        _ = 2 ^ 64 := by norm_num
    rw [resolve_dims, if_neg (by simp [h1]), if_neg h1, if_pos h2,
      u64_id hm, u32_id hq]
  · intro h1 h2
    rw [resolve_dims, if_neg (by simp [h1]), if_neg h1, if_neg h2]

/-- C3 witness: the aspect-inference examples of the spec, through the
amended theorem. -/
theorem c3_resolve_dims_witness :
    resolve_dims 960 0 1920 1080 = (960, 540) ∧
    resolve_dims 0 0 1920 1080 = (1920, 1080) := by
  have h1 := (c3_resolve_dims_amended 960 0 1920 1080 (by decide) (by decide)
    (by decide) (by decide) (by decide) (by decide)).2.2.1
    (by decide) rfl (by decide)
  have h2 := (c3_resolve_dims_amended 0 0 1920 1080 (by decide) (by decide)
    (by decide) (by decide) (by decide) (by decide)).1 rfl rfl
  exact ⟨h1.trans (by decide), h2⟩

/-! ### C4: service command handling -/

/-- C4 counterexample: an accepted connection on which read returns no bytes
has the empty trimmed command, which differs from GRAB, yet run_daemon
closes it without writing any reply (lines 603-606), so the claimed
unconditional ERR reply is not sent. -/
theorem c4_empty_read_no_reply_cex :
    trim_cmd (c_str []) ≠ grab_cmd ∧ handle_conn [] true = (none, false) := by
  refine ⟨by decide, rfl⟩

/-- C4 (amended): for every accepted connection on which read delivers at
least one byte and whose trimmed command is not exactly GRAB — including a
whitespace-only command that trims to empty — the server replies exactly
"ERR unsupported command\n", does not invoke the capture pipeline, and
closes the connection after that single reply; a connection on which read
delivers nothing is closed with no reply and no capture. -/
theorem c4_unsupported_command_amended (input : List Char) (grab_ok : Bool)
    (hne : input ≠ []) (hcmd : trim_cmd (c_str input) ≠ grab_cmd) :
    handle_conn input grab_ok = (some reply_unsupported, false) := by
  rw [handle_conn, if_neg fun h => hne (List.length_eq_zero.mp h), if_neg hcmd]

/-- C4 witness: the wrong-case command grab is rejected without capture. -/
theorem c4_unsupported_command_witness :
    handle_conn "grab".toList true = (some reply_unsupported, false) :=
  c4_unsupported_command_amended "grab".toList true (by decide) (by decide)

/-! ### Resampler lemmas -/

/-- The four bilinear weights always sum to exactly 2^32. -/
theorem weights_sum (fx fy : Nat) (hfx : fx ≤ 65536) (hfy : fy ≤ 65536) :
    (65536 - fx) * (65536 - fy) + fx * (65536 - fy) +
      (65536 - fx) * fy + fx * fy = 2 ^ 32 := by
  zify [hfx, hfy]
  ring

/-- With both fractional parts zero the blend returns its first sample. -/
theorem blend4_zero_frac (a b c d : Nat) (ha : a < 256) :
    blend4 a b c d 0 0 = a := by
  have e1 : a * ((65536 - 0) * (65536 - 0)) + b * (0 * (65536 - 0)) +
      c * ((65536 - 0) * 0) + d * (0 * 0) + 2 ^ 31 =
      a * 4294967296 + 2147483648 := by norm_num
  rw [blend4, e1, u64_id (by omega), Nat.shiftRight_eq_div_pow, u8]
  omega

/-- The blended channel lies between the minimum and the maximum of the four
samples, and in particular below 256, so the uint8_t store cannot wrap. -/
theorem blend4_bounds (a b c d fx fy : Nat)
    (ha : a < 256) (hb : b < 256) (hc : c < 256) (hd : d < 256)
    (hfx : fx ≤ 65535) (hfy : fy ≤ 65535) :
    min (min a b) (min c d) ≤ blend4 a b c d fx fy ∧
    blend4 a b c d fx fy ≤ max (max a b) (max c d) ∧
    blend4 a b c d fx fy < 256 := by
  rw [blend4]
  have hsum : (65536 - fx) * (65536 - fy) + fx * (65536 - fy) +
      (65536 - fx) * fy + fx * fy = 2 ^ 32 :=
    weights_sum fx fy (by omega) (by omega)
  set w00 := (65536 - fx) * (65536 - fy) with hw00
  set w10 := fx * (65536 - fy) with hw10
  set w01 := (65536 - fx) * fy with hw01
  set w11 := fx * fy with hw11
  set M := max (max a b) (max c d) with hMdef
  set m := min (min a b) (min c d) with hmdef
  have hMa : a ≤ M := by omega
  have hMb : b ≤ M := by omega
  have hMc : c ≤ M := by omega
  have hMd : d ≤ M := by omega
  have hma : m ≤ a := by omega
  have hmb : m ≤ b := by omega
  have hmc : m ≤ c := by omega
  have hmd : m ≤ d := by omega
  have hM256 : M < 256 := by omega
  have hub : a * w00 + b * w10 + c * w01 + d * w11 ≤ M * 2 ^ 32 := by
    calc a * w00 + b * w10 + c * w01 + d * w11
        ≤ M * w00 + M * w10 + M * w01 + M * w11 := by gcongr
      _ = M * (w00 + w10 + w01 + w11) := by ring
      _ = M * 2 ^ 32 := by rw [← hsum]
  have hlb : m * 2 ^ 32 ≤ a * w00 + b * w10 + c * w01 + d * w11 := by
    calc m * 2 ^ 32 = m * (w00 + w10 + w01 + w11) := by rw [← hsum]
      _ = m * w00 + m * w10 + m * w01 + m * w11 := by ring
      _ ≤ a * w00 + b * w10 + c * w01 + d * w11 := by gcongr
  have h64 : a * w00 + b * w10 + c * w01 + d * w11 + 2 ^ 31 < 2 ^ 64 := by omega
  rw [u64_id h64, Nat.shiftRight_eq_div_pow, u8]
  omega

/-- When source and destination extents agree, the 16.16 coordinate of
destination index i is exactly i * 65536, provided the extent stays within
65536 so that the uint32_t store does not truncate. -/
theorem bilinear_coord_same (n i : Nat) (h0 : 0 < n) (h16 : n ≤ 65536)
    (hi : i < n) : bilinear_coord n n i = i * 65536 := by
  rcases eq_or_ne n 1 with h1 | h1
  · subst h1
    have : i = 0 := by omega
    subst this
    rw [bilinear_coord, if_pos rfl]
  · rw [bilinear_coord, if_neg h1]
    have hn1 : 0 < n - 1 := by omega
    have e1 : (i * (n - 1)) <<< 16 = (n - 1) * (i * 65536) := by
      rw [Nat.shiftLeft_eq]
      have e : (2 : Nat) ^ 16 = 65536 := by norm_num
      rw [e]
      ring
    have e2 : u64 ((n - 1) * (i * 65536)) = (n - 1) * (i * 65536) := by
      apply u64_id
      have hi' : i ≤ 65535 := by omega
      have hn' : n - 1 ≤ 65535 := by omega
      calc (n - 1) * (i * 65536) ≤ 65535 * (65535 * 65536) := by gcongr
        _ < 2 ^ 64 := by norm_num
    rw [e1, e2, Nat.mul_div_cancel_left _ hn1]
    apply u32_id
    have hi' : i ≤ 65535 := by omega
    calc i * 65536 ≤ 65535 * 65536 := by gcongr
      _ < 2 ^ 32 := by norm_num

theorem fp_int_mul (y : Nat) : fp_int (y * 65536) = y := by
  rw [fp_int, Nat.shiftRight_eq_div_pow]
  omega

theorem fp_frac_mul (y : Nat) : fp_frac (y * 65536) = 0 := by
  rw [fp_frac]
  have h : (0xffff : Nat) = 2 ^ 16 - 1 := by norm_num
  rw [h, Nat.and_pow_two_sub_one_eq_mod]
  omega

theorem fp_int_zero : fp_int 0 = 0 := by decide

theorem fp_frac_zero : fp_frac 0 = 0 := by decide

/-! ### C7: resize to identical dimensions -/

/-- C7 counterexample: for a 1 x 65537 source whose pixel (0,0) is 0 and
whose later bytes are 1, bilinear resizing to the same 1 x 65537 size is not
pixel-identical: at destination row 65536 the 16.16 row coordinate
y * 65536 = 2^32 is truncated by the uint32_t cast of sy (line 57-58),
wrapping to row 0, so the output byte is the row-0 byte 0 instead of 1. -/
theorem c7_bilinear_identity_cex :
    ¬ ∀ x y c : Nat, x < 1 → y < 65537 → c < 3 →
      scale_rgb24_bilinear_at (fun i => if i < 3 then 0 else 1)
          1 65537 1 65537 x y c =
        (fun i => if i < 3 then 0 else 1) ((y * 1 + x) * 3 + c) := by
  intro hAll
  exact absurd (hAll 0 65536 0 (by decide) (by decide) (by decide)) (by decide)

/-- C7 (amended): resizing a w x h byte buffer to the same w x h dimensions
is pixel-identical to the source in nearest-neighbor mode and in bilinear
mode, provided both dimensions stay within 65536 (so the uint32_t 16.16
coordinates cannot truncate) and the buffer size 3*w*h stays within 2^32
(so the uint32_t byte-offset arithmetic cannot wrap). -/
theorem c7_resize_identity_amended (src : Nat → Nat) (w h x y c : Nat)
    (hw : 0 < w) (hh : 0 < h) (hw16 : w ≤ 65536) (hh16 : h ≤ 65536)
    (hsz : 3 * (w * h) ≤ 2 ^ 32) (hbytes : ∀ i, src i < 256)
    (hx : x < w) (hy : y < h) (hc : c < 3) :
    scale_rgb24_at src w h w h x y c = src ((y * w + x) * 3 + c) ∧
    scale_rgb24_bilinear_at src w h w h x y c = src ((y * w + x) * 3 + c) := by
  have hidx : (y * w + x) * 3 < 2 ^ 32 := by
    have h1 : (y + 1) * w ≤ h * w := Nat.mul_le_mul_right w hy
    have h2 : h * w = w * h := Nat.mul_comm h w
    have h3 : (y + 1) * w = y * w + w := by ring
    omega
  constructor
  · show src (u32 ((u32 (u64 (y * h) / h) * w + u32 (u64 (x * w) / w)) * 3) + c) = _
    have hy64 : u64 (y * h) = y * h := u64_id (by
      calc y * h ≤ 65536 * 65536 := Nat.mul_le_mul (by omega) hh16
        _ < 2 ^ 64 := by norm_num)
    have hx64 : u64 (x * w) = x * w := u64_id (by
      calc x * w ≤ 65536 * 65536 := Nat.mul_le_mul (by omega) hw16
        _ < 2 ^ 64 := by norm_num)
    rw [hy64, hx64, Nat.mul_div_cancel y hh, Nat.mul_div_cancel x hw,
      u32_id (show y < 2 ^ 32 by omega), u32_id (show x < 2 ^ 32 by omega),
      u32_id hidx]
  · have hcy := bilinear_coord_same h y hh hh16 hy
    have hcx := bilinear_coord_same w x hw hw16 hx
    show blend4
        (neighbor src w (fp_int (bilinear_coord h h y))
          (fp_int (bilinear_coord w w x)) c)
        (neighbor src w (fp_int (bilinear_coord h h y))
          (clamp_next (fp_int (bilinear_coord w w x)) (w - 1)) c)
        (neighbor src w (clamp_next (fp_int (bilinear_coord h h y)) (h - 1))
          (fp_int (bilinear_coord w w x)) c)
        (neighbor src w (clamp_next (fp_int (bilinear_coord h h y)) (h - 1))
          (clamp_next (fp_int (bilinear_coord w w x)) (w - 1)) c)
        (fp_frac (bilinear_coord w w x)) (fp_frac (bilinear_coord h h y)) = _
    rw [hcy, hcx, fp_int_mul, fp_int_mul, fp_frac_mul, fp_frac_mul]
    have hp : neighbor src w y x c < 256 := hbytes _
    rw [blend4_zero_frac _ _ _ _ hp]
    show src (u32 ((y * w + x) * 3) + c) = _
    rw [u32_id hidx]

/-- C7 witness: the identity on a concrete 1 x 1 byte buffer. -/
theorem c7_resize_identity_witness :
    scale_rgb24_at (fun i => i % 256) 1 1 1 1 0 0 0 =
      (fun i => i % 256) ((0 * 1 + 0) * 3 + 0) ∧
    scale_rgb24_bilinear_at (fun i => i % 256) 1 1 1 1 0 0 0 =
      (fun i => i % 256) ((0 * 1 + 0) * 3 + 0) :=
  c7_resize_identity_amended (fun i => i % 256) 1 1 0 0 0 (by decide) (by decide)
    (by decide) (by decide) (by decide) (fun i => Nat.mod_lt i (by decide))
    (by decide) (by decide) (by decide)

/-! ### C8: bilinear resize to 1 x 1 -/

/-- C8: resizing any byte buffer with width and height at least 1 to 1 x 1 in
bilinear mode yields exactly the source pixel at (0,0): both 16.16
coordinates are forced to 0, both fractional parts vanish, and the blend
returns byte c of pixel (0,0) for each channel c. -/
theorem c8_bilinear_1x1 (src : Nat → Nat) (w h c : Nat) (hw : 0 < w)
    (hh : 0 < h) (hbytes : ∀ i, src i < 256) (hc : c < 3) :
    scale_rgb24_bilinear_at src w h 1 1 0 0 c = src c := by
  have hcy : bilinear_coord h 1 0 = 0 := by rw [bilinear_coord, if_pos rfl]
  have hcx : bilinear_coord w 1 0 = 0 := by rw [bilinear_coord, if_pos rfl]
  show blend4
      (neighbor src w (fp_int (bilinear_coord h 1 0))
        (fp_int (bilinear_coord w 1 0)) c)
      (neighbor src w (fp_int (bilinear_coord h 1 0))
        (clamp_next (fp_int (bilinear_coord w 1 0)) (w - 1)) c)
      (neighbor src w (clamp_next (fp_int (bilinear_coord h 1 0)) (h - 1))
        (fp_int (bilinear_coord w 1 0)) c)
      (neighbor src w (clamp_next (fp_int (bilinear_coord h 1 0)) (h - 1))
        (clamp_next (fp_int (bilinear_coord w 1 0)) (w - 1)) c)
      (fp_frac (bilinear_coord w 1 0)) (fp_frac (bilinear_coord h 1 0)) = src c
  rw [hcy, hcx, fp_int_zero, fp_frac_zero]
  have hp : neighbor src w 0 0 c = src c := by
    rw [neighbor]
    norm_num [u32]
  rw [hp, blend4_zero_frac _ _ _ _ (hbytes c)]

/-- C8 witness: a concrete 3 x 3 buffer collapsed to its pixel (0,0). -/
theorem c8_bilinear_1x1_witness :
    scale_rgb24_bilinear_at (fun i => i % 256) 3 3 1 1 0 0 2 =
      (fun i => i % 256) 2 :=
  c8_bilinear_1x1 (fun i => i % 256) 3 3 2 (by decide) (by decide)
    (fun i => Nat.mod_lt i (by decide)) (by decide)

/-! ### C9: bilinear output is bounded by its neighbors -/

/-- C9: every channel of every bilinear output pixel lies between the
minimum and the maximum of the corresponding channel of the four source
samples the code reads for it; the four 16.16 weights sum to exactly 2^32,
and the rounded, shifted sum stays below 256, so the uint8_t store never
wraps. -/
theorem c9_bilinear_bounded (src : Nat → Nat) (sw sh dw dh x y c : Nat)
    (hsw : 0 < sw) (hsh : 0 < sh) (hdw : 0 < dw) (hdh : 0 < dh)
    (hx : x < dw) (hy : y < dh) (hc : c < 3) (hbytes : ∀ i, src i < 256) :
    ((65536 - fp_frac (bilinear_coord sw dw x)) *
        (65536 - fp_frac (bilinear_coord sh dh y)) +
      fp_frac (bilinear_coord sw dw x) *
        (65536 - fp_frac (bilinear_coord sh dh y)) +
      (65536 - fp_frac (bilinear_coord sw dw x)) *
        fp_frac (bilinear_coord sh dh y) +
      fp_frac (bilinear_coord sw dw x) *
        fp_frac (bilinear_coord sh dh y) = 2 ^ 32) ∧
    min
      (min
        (neighbor src sw (fp_int (bilinear_coord sh dh y))
          (fp_int (bilinear_coord sw dw x)) c)
        (neighbor src sw (fp_int (bilinear_coord sh dh y))
          (clamp_next (fp_int (bilinear_coord sw dw x)) (sw - 1)) c))
      (min
        (neighbor src sw (clamp_next (fp_int (bilinear_coord sh dh y)) (sh - 1))
          (fp_int (bilinear_coord sw dw x)) c)
        (neighbor src sw (clamp_next (fp_int (bilinear_coord sh dh y)) (sh - 1))
          (clamp_next (fp_int (bilinear_coord sw dw x)) (sw - 1)) c)) ≤
      scale_rgb24_bilinear_at src sw sh dw dh x y c ∧
    scale_rgb24_bilinear_at src sw sh dw dh x y c ≤
      max
        (max
          (neighbor src sw (fp_int (bilinear_coord sh dh y))
            (fp_int (bilinear_coord sw dw x)) c)
          (neighbor src sw (fp_int (bilinear_coord sh dh y))
            (clamp_next (fp_int (bilinear_coord sw dw x)) (sw - 1)) c))
        (max
          (neighbor src sw (clamp_next (fp_int (bilinear_coord sh dh y)) (sh - 1))
            (fp_int (bilinear_coord sw dw x)) c)
          (neighbor src sw (clamp_next (fp_int (bilinear_coord sh dh y)) (sh - 1))
            (clamp_next (fp_int (bilinear_coord sw dw x)) (sw - 1)) c)) ∧
    scale_rgb24_bilinear_at src sw sh dw dh x y c < 256 := by
  have hfx : fp_frac (bilinear_coord sw dw x) ≤ 65535 := Nat.and_le_right
  have hfy : fp_frac (bilinear_coord sh dh y) ≤ 65535 := Nat.and_le_right
  have hmain := blend4_bounds
    (neighbor src sw (fp_int (bilinear_coord sh dh y))
      (fp_int (bilinear_coord sw dw x)) c)
    (neighbor src sw (fp_int (bilinear_coord sh dh y))
      (clamp_next (fp_int (bilinear_coord sw dw x)) (sw - 1)) c)
    (neighbor src sw (clamp_next (fp_int (bilinear_coord sh dh y)) (sh - 1))
      (fp_int (bilinear_coord sw dw x)) c)
    (neighbor src sw (clamp_next (fp_int (bilinear_coord sh dh y)) (sh - 1))
      (clamp_next (fp_int (bilinear_coord sw dw x)) (sw - 1)) c)
    (fp_frac (bilinear_coord sw dw x)) (fp_frac (bilinear_coord sh dh y))
    (hbytes _) (hbytes _) (hbytes _) (hbytes _) hfx hfy
  exact ⟨weights_sum _ _ (by omega) (by omega),
    hmain.1, hmain.2.1, hmain.2.2⟩

/-- C9 witness: the bounds at a concrete 2 x 2 source scaled to 3 x 3,
destination pixel (1,1), channel 0. -/
theorem c9_bilinear_bounded_witness :
    ((65536 - fp_frac (bilinear_coord 2 3 1)) *
        (65536 - fp_frac (bilinear_coord 2 3 1)) +
      fp_frac (bilinear_coord 2 3 1) * (65536 - fp_frac (bilinear_coord 2 3 1)) +
      (65536 - fp_frac (bilinear_coord 2 3 1)) * fp_frac (bilinear_coord 2 3 1) +
      fp_frac (bilinear_coord 2 3 1) * fp_frac (bilinear_coord 2 3 1) = 2 ^ 32) ∧
    min
      (min
        (neighbor (fun i => i % 256) 2 (fp_int (bilinear_coord 2 3 1))
          (fp_int (bilinear_coord 2 3 1)) 0)
        (neighbor (fun i => i % 256) 2 (fp_int (bilinear_coord 2 3 1))
          (clamp_next (fp_int (bilinear_coord 2 3 1)) (2 - 1)) 0))
      (min
        (neighbor (fun i => i % 256) 2
          (clamp_next (fp_int (bilinear_coord 2 3 1)) (2 - 1))
          (fp_int (bilinear_coord 2 3 1)) 0)
        (neighbor (fun i => i % 256) 2
          (clamp_next (fp_int (bilinear_coord 2 3 1)) (2 - 1))
          (clamp_next (fp_int (bilinear_coord 2 3 1)) (2 - 1)) 0)) ≤
      scale_rgb24_bilinear_at (fun i => i % 256) 2 2 3 3 1 1 0 ∧
    scale_rgb24_bilinear_at (fun i => i % 256) 2 2 3 3 1 1 0 ≤
      max
        (max
          (neighbor (fun i => i % 256) 2 (fp_int (bilinear_coord 2 3 1))
            (fp_int (bilinear_coord 2 3 1)) 0)
          (neighbor (fun i => i % 256) 2 (fp_int (bilinear_coord 2 3 1))
            (clamp_next (fp_int (bilinear_coord 2 3 1)) (2 - 1)) 0))
        (max
          (neighbor (fun i => i % 256) 2
            (clamp_next (fp_int (bilinear_coord 2 3 1)) (2 - 1))
            (fp_int (bilinear_coord 2 3 1)) 0)
          (neighbor (fun i => i % 256) 2
            (clamp_next (fp_int (bilinear_coord 2 3 1)) (2 - 1))
            (clamp_next (fp_int (bilinear_coord 2 3 1)) (2 - 1)) 0)) ∧
    scale_rgb24_bilinear_at (fun i => i % 256) 2 2 3 3 1 1 0 < 256 :=
  c9_bilinear_bounded (fun i => i % 256) 2 2 3 3 1 1 0 (by decide) (by decide)
    (by decide) (by decide) (by decide) (by decide) (by decide)
    (fun i => Nat.mod_lt i (by decide))

end Kmsgrab
